import Mathlib

/-!
Verification development for the BLE Security Manager (`blatann/gap/smp.py`).

The Python module is shallowly embedded: pure functions become Lean
functions, raised exceptions become `Except` errors, driver commands and
notifications issued by a handler become an explicit list of `Command`
values, and the mutable object state of `SecurityManager` (together with
the bond database it manipulates through `self.ble_device.bond_db`)
becomes an explicit `SmpState` record threaded through each handler.
Python references to bond-database records (`self.bond_db_entry`) are
modeled as indices into the database list.

The AES-128-ECB block cipher comes from an external library
(`Crypto.Cipher.AES`); it is modeled as an abstract function parameter
`aes : AesFn` taking the key bytes and the block bytes.
-/

namespace Blatann

/-- Byte strings (Python `str`/`bytearray` values) are lists of naturals. -/
abbrev Bytes := List Nat

/-- Abstract AES-128-ECB single-block encryption: `aes key block`.
The concrete cipher is an external collaborator (PyCryptodome). -/
abbrev AesFn := Bytes → Bytes → Bytes

/-- `nrf_types.BLEGapAddrTypes`: the BLE address types used by the module. -/
inductive BLEGapAddrType
  | public
  | random_static
  | random_private_resolvable
  | random_private_non_resolvable
deriving DecidableEq

/-- `nrf_types.BLEGapSecStatus` (the values this module inspects or emits). -/
inductive SecurityStatus
  | success
  | timeout
  | pairing_not_supp
  | auth_req
  | unspecified
deriving DecidableEq

/-- `nrf_types.BLEGapTimeoutSrc` subtypes. -/
inductive TimeoutSrc
  | security_req
  | scan
  | conn
  | advertising
deriving DecidableEq

/-- A BLE address: its type and its bytes (`peer_addr.addr_type`, `peer_addr.addr`). -/
structure BLEGapAddr where
  addr_type : BLEGapAddrType
  addr : Bytes
deriving DecidableEq

/-- Exceptions raised by the module: `ValueError` from `ah`,
`InvalidStateException` and `InvalidOperationException` from `pair`. -/
inductive SmpErr
  | valueError (msg : String)
  | invalidState (msg : String)
  | invalidOperation (msg : String)
deriving DecidableEq

/-- Python's `x[-3:]`: the last `n` elements (the whole list when shorter). -/
def lastN (n : Nat) (xs : Bytes) : Bytes :=
  xs.drop (xs.length - n)

/-- `smp.ah(key, p_rand)`: validates that `p_rand` has exactly 3 bytes, then
ECB-encrypts 13 zero bytes followed by `p_rand` under `key` and keeps the
last 3 bytes of the ciphertext. -/
def ah (aes : AesFn) (key p_rand : Bytes) : Except SmpErr Bytes :=
  if p_rand.length ≠ 3 then
    .error (.valueError "Prand must be a str or bytes of length 3")
  else
    .ok (lastN 3 (aes key (List.replicate 13 0 ++ p_rand)))

/-- `smp.private_address_resolves(peer_addr, irk)`: splits the address bytes
into `prand = addr[:3]` and `hash = addr[3:]`, reverses the little-endian IRK
into big-endian, and compares `ah(irk_be, prand)` with the hash. -/
def private_address_resolves (aes : AesFn) (peer_addr : BLEGapAddr) (irk : Bytes) :
    Except SmpErr Bool :=
  let p_rand := peer_addr.addr.take 3
  let addr_hash := peer_addr.addr.drop 3
  let irk_be := irk.reverse
  match ah aes irk_be p_rand with
  | .error e => .error e
  | .ok local_hash => .ok (local_hash == addr_hash)

/-- The hash `ah(K, P)` as the specification phrases it: last 3 bytes of
AES-128-ECB under the IRK `K` reversed from little-endian to big-endian, of
13 zero bytes followed by `P`. -/
def ahHash (aes : AesFn) (irk p_rand : Bytes) : Bytes :=
  lastN 3 (aes irk.reverse (List.replicate 13 0 ++ p_rand))

/-- Flip bit `i` of byte `j` of a byte string (used to state claim C1). -/
def flipBit (xs : Bytes) (j i : Nat) : Bytes :=
  xs.set j (Nat.xor (xs.getD j 0) (2 ^ i))

/-- `nrf_types.BLEGapMasterId`: the (EDIV, RAND) pair identifying an LTK. -/
structure MasterId where
  ediv : Nat
  rand : Bytes
deriving DecidableEq

/-- A long-term key: its master id and its (abstractly identified)
encryption info (`ltk.master_id`, `ltk.enc_info`). -/
structure LTK where
  master_id : MasterId
  enc_info : Nat
deriving DecidableEq

/-- An identity key: IRK plus identity address (`id_key.irk`, `id_key.peer_addr`). -/
structure IdKey where
  irk : Bytes
  peer_addr : BLEGapAddr
deriving DecidableEq

/-- `bond_db.BondingData`, as consumed here: own LTK, peer LTK and the peer
identity key (IRK + identity address). -/
structure BondingData where
  own_ltk : LTK
  peer_ltk : LTK
  peer_id : IdKey
deriving DecidableEq

/-- A record of the bond database: role flag, peer address and bonding data. -/
structure BondDbEntry where
  peer_is_client : Bool
  peer_addr : BLEGapAddr
  bonding_data : BondingData
deriving DecidableEq

/-- `nrf_types.BLEGapSecKeyset`, as consumed here after `reload()`: the
negotiated own/peer LTKs and the peer identity key, whose
`peer_id.peer_addr` is `keyset.peer_keys.id_key.peer_addr`. -/
structure SecKeyset where
  own_ltk : LTK
  peer_ltk : LTK
  peer_id : IdKey
deriving DecidableEq

/-- `BondingData(keyset)`: the bonding data extracted from a negotiated keyset. -/
def BondingData.ofKeyset (ks : SecKeyset) : BondingData :=
  ⟨ks.own_ltk, ks.peer_ltk, ks.peer_id⟩

/-- `smp.SecurityParameters`. -/
structure SecurityParameters where
  passcode_pairing : Bool
  io_capabilities : Nat
  bond : Bool
  out_of_band : Bool
  reject_pairing_requests : Bool
deriving DecidableEq

/-- `nrf_types.BLEGapSecKeyDist(enc, id, sign, link)`. -/
structure BLEGapSecKeyDist where
  enc_key : Bool
  id_key : Bool
  sign_key : Bool
  link_key : Bool
deriving DecidableEq

/-- `nrf_types.BLEGapSecParams`, in the constructor-argument order used by
`SecurityManager._get_security_params`. -/
structure BLEGapSecParams where
  bond : Bool
  mitm : Bool
  lesc : Bool
  keypress : Bool
  io_caps : Nat
  oob : Bool
  min_key_size : Nat
  max_key_size : Nat
  kdist_own : BLEGapSecKeyDist
  kdist_peer : BLEGapSecKeyDist
deriving DecidableEq

/-- The driver events `_on_peer_connected` subscribes handlers to. -/
inductive DriverEventKind
  | secParamsRequest
  | authStatus
  | authKeyRequest
  | passkeyDisplay
  | secInfoRequest
deriving DecidableEq

/-- Outbound effects of the security manager: driver commands, notifications
raised on its event sources, bond-database persistence and subscriptions. -/
inductive Command
  | authenticate (conn : Nat) (params : BLEGapSecParams)
  | secInfoReply (conn : Nat) (enc_info : Option Nat) (id_info : Option Nat) (sign_info : Option Nat)
  | authKeyReply (conn : Nat) (key_type : Nat) (key : String)
  | notifyPairingComplete (status : SecurityStatus)
  | notifyPasskeyEntry (key_type : Nat)
  | dbSave (db : List BondDbEntry)
  | subscribe (ev : DriverEventKind)
deriving DecidableEq

/-- The handle `pair()` returns: an `EventWaitable` on the pairing-complete
event source. -/
inductive PairWaitable
  | onPairingComplete
deriving DecidableEq

/-- The mutable state of a `SecurityManager` together with the bond database
(`ble_device.bond_db`) it reads and writes. `bond_db_entry` is the index of
the referenced record in `bond_db` (Python holds an object reference). -/
structure SmpState where
  security_params : SecurityParameters
  busy : Bool
  keyset : SecKeyset
  bond_db_entry : Option Nat
  bond_db : List BondDbEntry
  peer_is_client : Bool
  conn_handle : Nat
deriving DecidableEq

/-- `SecurityManager.set_security_params(...)`: unconditionally replaces the
stored parameters (the source performs no busy check). -/
def set_security_params (st : SmpState) (passcode_pairing : Bool) (io_capabilities : Nat)
    (bond : Bool) (out_of_band : Bool) (reject_pairing_requests : Bool) : SmpState :=
  { st with security_params :=
      ⟨passcode_pairing, io_capabilities, bond, out_of_band, reject_pairing_requests⟩ }

/-- `SecurityManager._get_security_params()`. -/
def get_security_params (st : SmpState) : BLEGapSecParams :=
  { bond := st.security_params.bond
    mitm := st.security_params.passcode_pairing
    lesc := false
    keypress := false
    io_caps := st.security_params.io_capabilities
    oob := st.security_params.out_of_band
    min_key_size := 7
    max_key_size := 16
    kdist_own := ⟨true, true, false, false⟩
    kdist_peer := ⟨true, true, false, false⟩ }

/-- `SecurityManager.pair()`: raises `InvalidStateException` while busy,
then `InvalidOperationException` when rejecting pairing requests; otherwise
sends the authenticate command, sets busy and returns the waitable. -/
def pair (st : SmpState) : Except SmpErr PairWaitable × SmpState × List Command :=
  if st.busy then
    (.error (.invalidState "Security manager busy"), st, [])
  else if st.security_params.reject_pairing_requests then
    (.error (.invalidOperation "Cannot initiate pairing while rejecting pairing requests"), st, [])
  else
    (.ok .onPairingComplete,
     { st with busy := true },
     [Command.authenticate st.conn_handle (get_security_params st)])

/-- The loop body of `SecurityManager._find_db_entry`: scans the database in
insertion order, skipping records whose role flag differs, matching public
and random-static addresses by equality and resolvable addresses through
`private_address_resolves` (whose exception propagates). Returns the index
of the first matching record. -/
def find_loop (aes : AesFn) (is_client : Bool) (peer_address : BLEGapAddr) :
    List BondDbEntry → Except SmpErr (Option Nat)
  | [] => .ok none
  | r :: rest =>
    if is_client != r.peer_is_client then
      (find_loop aes is_client peer_address rest).map (Option.map (· + 1))
    else if peer_address.addr_type == .random_static || peer_address.addr_type == .public then
      if r.peer_addr == peer_address then .ok (some 0)
      else (find_loop aes is_client peer_address rest).map (Option.map (· + 1))
    else
      match private_address_resolves aes peer_address r.bonding_data.peer_id.irk with
      | .error e => .error e
      | .ok true => .ok (some 0)
      | .ok false => (find_loop aes is_client peer_address rest).map (Option.map (· + 1))

/-- `SecurityManager._find_db_entry(peer_address)`: short-circuits
random-private-non-resolvable addresses, otherwise runs the scan loop. -/
def find_db_entry (aes : AesFn) (is_client : Bool) (db : List BondDbEntry)
    (peer_address : BLEGapAddr) : Except SmpErr (Option Nat) :=
  if peer_address.addr_type == .random_private_non_resolvable then .ok none
  else find_loop aes is_client peer_address db

/-- Replace the bonding data of record `i` (Python mutates the record the
`bond_db_entry` reference aliases; out-of-range indices leave the list as is). -/
def setBondingData (db : List BondDbEntry) (i : Nat) (bd : BondingData) : List BondDbEntry :=
  match db.get? i with
  | some r => db.set i { r with bonding_data := bd }
  | none => db

/-- `GapEvtAuthStatus` fields consumed by `_on_authentication_status`. -/
structure AuthStatusEvent where
  conn_handle : Nat
  auth_status : SecurityStatus
  bonded : Bool
deriving DecidableEq

/-- `SecurityManager._on_authentication_status(driver, event)`. `reloaded` is
the keyset as `self.keyset.reload()` reads it back from driver memory. -/
def on_authentication_status (aes : AesFn) (st : SmpState) (ev : AuthStatusEvent)
    (reloaded : SecKeyset) : Except SmpErr Unit × SmpState × List Command :=
  let st1 := { st with busy := false }
  let cmds := [Command.notifyPairingComplete ev.auth_status]
  if ev.auth_status == .success && ev.bonded then
    let st2 := { st1 with keyset := reloaded }
    match (match st2.bond_db_entry with
           | some i => Except.ok (some i)
           | none => find_db_entry aes st2.peer_is_client st2.bond_db reloaded.peer_id.peer_addr) with
    | .error e => (.error e, st2, cmds)
    | .ok none =>
      let newRec : BondDbEntry :=
        { peer_is_client := st2.peer_is_client
          peer_addr := reloaded.peer_id.peer_addr
          bonding_data := BondingData.ofKeyset reloaded }
      let db2 := st2.bond_db ++ [newRec]
      let st3 := { st2 with bond_db := db2, bond_db_entry := some st2.bond_db.length }
      (.ok (), st3, cmds ++ [Command.dbSave db2])
    | .ok (some i) =>
      let db2 := setBondingData st2.bond_db i (BondingData.ofKeyset reloaded)
      let st3 := { st2 with bond_db := db2, bond_db_entry := some i }
      (.ok (), st3, cmds ++ [Command.dbSave db2])
  else
    (.ok (), st1, cmds)

/-- `SecurityManager._on_peer_connected(peer, event_args)`: clears busy,
subscribes the five driver-event handlers, then looks the connecting peer up
in the bond database and stores the result (or propagates the lookup's
exception, leaving `bond_db_entry` unchanged). -/
def on_peer_connected (aes : AesFn) (st : SmpState) (peer_address : BLEGapAddr) :
    Except SmpErr Unit × SmpState × List Command :=
  let st1 := { st with busy := false }
  let cmds := [Command.subscribe .secParamsRequest, Command.subscribe .authStatus,
               Command.subscribe .authKeyRequest, Command.subscribe .passkeyDisplay,
               Command.subscribe .secInfoRequest]
  match find_db_entry aes st1.peer_is_client st1.bond_db peer_address with
  | .error e => (.error e, st1, cmds)
  | .ok r => (.ok (), { st1 with bond_db_entry := r }, cmds)

/-- Master-id equality as `_on_security_info_request` checks it:
`event.master_id.ediv == mid.ediv and event.master_id.rand == mid.rand`. -/
def midMatches (a b : MasterId) : Bool :=
  a.ediv == b.ediv && a.rand == b.rand

/-- The scan loop of `_on_security_info_request`: first record whose role
flag matches and whose own-LTK master id (checked first) or peer-LTK master
id equals the event's master id; returns its index. -/
def find_by_master_id (is_client : Bool) (mid : MasterId) :
    List BondDbEntry → Option Nat
  | [] => none
  | r :: rest =>
    if r.peer_is_client != is_client then
      (find_by_master_id is_client mid rest).map (· + 1)
    else if midMatches mid r.bonding_data.own_ltk.master_id then some 0
    else if midMatches mid r.bonding_data.peer_ltk.master_id then some 0
    else (find_by_master_id is_client mid rest).map (· + 1)

/-- `GapEvtSecInfoRequest` fields consumed by `_on_security_info_request`. -/
structure SecInfoEvent where
  conn_handle : Nat
  master_id : MasterId
deriving DecidableEq

/-- `SecurityManager._on_security_info_request(driver, event)`: looks the
master id up; when found, stores the record reference and replies with the
record's own-LTK encryption info; otherwise replies empty. -/
def on_security_info_request (st : SmpState) (ev : SecInfoEvent) :
    SmpState × List Command :=
  match find_by_master_id st.peer_is_client ev.master_id st.bond_db with
  | none => (st, [Command.secInfoReply ev.conn_handle none none none])
  | some i =>
    ({ st with bond_db_entry := some i },
     [Command.secInfoReply ev.conn_handle
        ((st.bond_db.get? i).map (fun r => r.bonding_data.own_ltk.enc_info)) none none])

/-- A passkey value handed to the resolve callback: a number or a string
(Python accepts `int`/`long` and `str`/`unicode`). -/
inductive PasskeyValue
  | num (n : Nat)
  | str (s : String)
deriving DecidableEq

/-- Python's `"{:06d}".format(n)` for the numeric case; strings pass through. -/
def format_passkey : PasskeyValue → String
  | .num n =>
    let s := toString n
    String.mk (List.replicate (6 - s.length) '0') ++ s
  | .str s => s

/-- The `resolve(passkey)` closure created by `_on_auth_key_request`: reads
the session's busy flag at invocation time; a no-op when not busy, otherwise
sends the auth-key reply with the requesting event's key type. -/
def auth_key_resolve (st : SmpState) (key_type : Nat) (pk : PasskeyValue) : List Command :=
  if !st.busy then []
  else [Command.authKeyReply st.conn_handle key_type (format_passkey pk)]

/-- `SecurityManager._on_auth_key_request(driver, event)`: dispatches the
passkey-entry notification (on a background thread) carrying the event's key
type and the resolve callback; session state is unchanged. -/
def on_auth_key_request (st : SmpState) (key_type : Nat) : SmpState × List Command :=
  (st, [Command.notifyPasskeyEntry key_type])

/-- `SecurityManager._on_timeout(driver, event)`: ignores timeout sources
other than the security request; for a security-request timeout it notifies
pairing-complete with the timeout status. The busy flag is not touched. -/
def on_timeout (st : SmpState) (src : TimeoutSrc) : SmpState × List Command :=
  if src != .security_req then (st, [])
  else (st, [Command.notifyPairingComplete SecurityStatus.timeout])

/-- Index of the first record satisfying a predicate, in insertion order
(the specification-side description of "first match wins"). -/
def firstMatchIdx (p : BondDbEntry → Bool) : List BondDbEntry → Option Nat
  | [] => none
  | r :: rest => if p r then some 0 else (firstMatchIdx p rest).map (· + 1)

/-- Whether IRK resolution succeeds (returns `True` without raising). -/
def resolvesToTrue (aes : AesFn) (pa : BLEGapAddr) (irk : Bytes) : Bool :=
  match private_address_resolves aes pa irk with
  | .ok true => true
  | _ => false

/-- A concrete stand-in cipher used to evaluate the model at witness inputs
(the development's theorems hold for every `aes`); it always produces a
16-byte block and is the identity on 16-byte inputs. -/
def aesTest : AesFn := fun _k b => (b ++ List.replicate 16 0).take 16

/-- A concrete 16-byte IRK for witnesses. -/
def irkTest : Bytes := List.replicate 16 5

/-- Concrete fixtures used by witnesses and counterexamples. -/
def ltkTest : LTK := ⟨⟨1, [2, 3]⟩, 10⟩

def addrTest : BLEGapAddr := ⟨.public, [1, 2, 3, 4, 5, 6]⟩

def recTest : BondDbEntry :=
  { peer_is_client := true
    peer_addr := addrTest
    bonding_data := ⟨ltkTest, ltkTest, ⟨irkTest, addrTest⟩⟩ }

def keysetTest : SecKeyset := ⟨⟨⟨8, [9, 9]⟩, 11⟩, ⟨⟨12, [13]⟩, 14⟩, ⟨irkTest, addrTest⟩⟩

def secParamsTest : SecurityParameters := ⟨false, 4, true, false, false⟩

def stTest : SmpState :=
  { security_params := secParamsTest
    busy := false
    keyset := keysetTest
    bond_db_entry := none
    bond_db := [recTest]
    peer_is_client := true
    conn_handle := 7 }

/-!
Helper lemmas.
-/

theorem getD_set_self (xs : Bytes) (j v : Nat) (h : j < xs.length) :
    (xs.set j v).getD j 0 = v := by
  simp [List.getD, List.getElem?_set, h]

theorem xor_two_pow_ne (x i : Nat) : Nat.xor x (2 ^ i) ≠ x := by
  intro hc
  have hc2 : x ^^^ (2 ^ i) = x ^^^ 0 := by
    show Nat.xor x (2 ^ i) = _
    simpa using hc
  have h0 := Nat.xor_right_inj.mp hc2
  have hp := Nat.pos_pow_of_pos i (show 0 < 2 by norm_num)
  omega

theorem flipBit_ne (xs : Bytes) (j i : Nat) (h : j < xs.length) : flipBit xs j i ≠ xs := by
  intro hc
  have h1 : (flipBit xs j i).getD j 0 = Nat.xor (xs.getD j 0) (2 ^ i) :=
    getD_set_self xs j _ h
  rw [hc] at h1
  exact xor_two_pow_ne (xs.getD j 0) i h1.symm

/-- For an address of at least 3 bytes, resolution never raises: it compares
the ah-hash of the first three bytes with the remaining bytes. -/
theorem resolves_of_three_le (aes : AesFn) (pa : BLEGapAddr) (irk : Bytes)
    (h : 3 ≤ pa.addr.length) :
    private_address_resolves aes pa irk =
      .ok (ahHash aes irk (pa.addr.take 3) == pa.addr.drop 3) := by
  have ht : (pa.addr.take 3).length = 3 := by
    simp only [List.length_take]
    omega
  simp [private_address_resolves, ah, ahHash, ht]

/-!
Claim C1.
-/

/-- Claim C1: for every 16-byte identity key K and 3-byte prand P, an address
whose first 3 bytes are P and whose last 3 bytes equal ah(K, P) — the last 3
bytes of AES-128-ECB under K reversed from little-endian to big-endian of 13
zero bytes followed by P — resolves against K, and flipping any bit of the
hash part makes `private_address_resolves` return false. -/
theorem claim_C1_resolution (aes : AesFn) (K P : Bytes) (t : BLEGapAddrType)
    (hP : P.length = 3) (hLen : (ahHash aes K P).length = 3) :
    private_address_resolves aes ⟨t, P ++ ahHash aes K P⟩ K = .ok true ∧
    (∀ j i : Nat, j < 3 →
      private_address_resolves aes ⟨t, P ++ flipBit (ahHash aes K P) j i⟩ K = .ok false) := by
  obtain ⟨a, b, c, rfl⟩ : ∃ a b c, P = [a, b, c] := by
    rcases P with _ | ⟨a, _ | ⟨b, _ | ⟨c, _ | ⟨d, P⟩⟩⟩⟩ <;> simp at hP
    exact ⟨a, b, c, rfl⟩
  have key : ∀ h' : Bytes, private_address_resolves aes ⟨t, [a, b, c] ++ h'⟩ K
      = .ok (ahHash aes K [a, b, c] == h') := fun _ => rfl
  constructor
  · rw [key]
    simp
  · intro j i hj
    rw [key]
    have hne : ahHash aes K [a, b, c] ≠ flipBit (ahHash aes K [a, b, c]) j i := by
      intro hc
      exact flipBit_ne (ahHash aes K [a, b, c]) j i (by rw [hLen]; exact hj) hc.symm
    simp [hne]

/-- Witness for claim C1 at a concrete cipher, key and prand. -/
theorem claim_C1_resolution_witness :
    private_address_resolves aesTest
      ⟨.random_private_resolvable, [1, 2, 3] ++ ahHash aesTest irkTest [1, 2, 3]⟩ irkTest
      = .ok true ∧
    private_address_resolves aesTest
      ⟨.random_private_resolvable,
        [1, 2, 3] ++ flipBit (ahHash aesTest irkTest [1, 2, 3]) 0 0⟩ irkTest
      = .ok false := by
  have h := claim_C1_resolution aesTest irkTest [1, 2, 3] .random_private_resolvable
    (by decide) (by decide)
  exact ⟨h.1, h.2 0 0 (by decide)⟩

/-!
Claim C6. The claim states that every peer address whose byte slice is not
exactly 6 bytes makes `private_address_resolves` raise. In the source the
only validation is `ah`'s check that `p_rand` has exactly 3 bytes, and
`p_rand` is `peer_addr.addr[:3]`, which has 3 bytes whenever the address has
at least 3: a 4-byte address raises nothing and resolution returns False.
The function raises exactly when the address has fewer than 3 bytes.
-/

/-- Counterexample to claim C6 as stated: a 4-byte peer address (not 6 bytes
long) does not raise — `private_address_resolves` returns `false`. -/
theorem claim_C6_counterexample :
    private_address_resolves aesTest ⟨.random_private_resolvable, [1, 2, 3, 4]⟩ irkTest
      = .ok false := rfl

/-- Claim C6 as amended: `private_address_resolves` fails with the
invalid-input (`ValueError`) error exactly for addresses of fewer than 3
bytes (the prand slice is then shorter than 3); for any address of at least
3 bytes it returns a boolean without raising, and when the address length
also differs from 6 that boolean is false (under AES's 16-byte block
contract the 3-byte local hash cannot equal a slice whose length is not 3). -/
theorem claim_C6_invalid_input (aes : AesFn) (pa : BLEGapAddr) (irk : Bytes) :
    (pa.addr.length < 3 →
      private_address_resolves aes pa irk =
        .error (.valueError "Prand must be a str or bytes of length 3")) ∧
    (3 ≤ pa.addr.length →
      private_address_resolves aes pa irk =
        .ok (ahHash aes irk (pa.addr.take 3) == pa.addr.drop 3)) ∧
    (3 ≤ pa.addr.length → pa.addr.length ≠ 6 →
      (∀ key block, (aes key block).length = 16) →
      private_address_resolves aes pa irk = .ok false) := by
  refine ⟨fun hlt => ?_, fun hge => resolves_of_three_le aes pa irk hge, fun hge h6 h16 => ?_⟩
  · have hne : (pa.addr.take 3).length ≠ 3 := by
      simp only [List.length_take]
      omega
    simp [private_address_resolves, ah, hne, hlt]
  · rw [resolves_of_three_le aes pa irk hge]
    have hl1 : (ahHash aes irk (pa.addr.take 3)).length = 3 := by
      simp [ahHash, lastN, h16]
    have hne : ahHash aes irk (pa.addr.take 3) ≠ pa.addr.drop 3 := by
      intro hc
      rw [hc] at hl1
      simp only [List.length_drop] at hl1
      omega
    simp [hne]

/-- Witness for the amended claim C6 at concrete inputs of lengths 2 and 7. -/
theorem claim_C6_invalid_input_witness :
    private_address_resolves aesTest ⟨.random_private_resolvable, [1, 2]⟩ irkTest
      = .error (.valueError "Prand must be a str or bytes of length 3") ∧
    private_address_resolves aesTest ⟨.random_private_resolvable, [1, 2, 3, 4, 5, 6, 7]⟩ irkTest
      = .ok false := by
  constructor
  · exact (claim_C6_invalid_input aesTest ⟨.random_private_resolvable, [1, 2]⟩ irkTest).1
      (by decide)
  · exact (claim_C6_invalid_input aesTest
      ⟨.random_private_resolvable, [1, 2, 3, 4, 5, 6, 7]⟩ irkTest).2.2
      (by decide) (by decide) (fun _ _ => by simp [aesTest])

/-!
Claim C3. The claim's quantifier "every peer address" fails on a malformed
resolvable address of fewer than 3 bytes: when the scan reaches a
role-matching record, `private_address_resolves` raises instead of the
lookup returning no match. For all other inputs the claimed characterization
holds exactly.
-/

theorem find_loop_exact (aes : AesFn) (is_client : Bool) (pa : BLEGapAddr)
    (hT : pa.addr_type = .public ∨ pa.addr_type = .random_static) (db : List BondDbEntry) :
    find_loop aes is_client pa db =
      .ok (firstMatchIdx (fun r => (is_client == r.peer_is_client) && (r.peer_addr == pa)) db) := by
  induction db with
  | nil => rfl
  | cons r rest ih =>
    by_cases hrole : is_client = r.peer_is_client
    · subst hrole
      by_cases haddr : r.peer_addr = pa
      · rcases hT with h | h <;> simp [find_loop, firstMatchIdx, haddr, h]
      · rcases hT with h | h <;>
          simp [find_loop, firstMatchIdx, haddr, h, ih, Except.map]
    · simp [find_loop, firstMatchIdx, hrole, ih, Except.map]

theorem find_loop_resolvable (aes : AesFn) (is_client : Bool) (pa : BLEGapAddr)
    (hT : pa.addr_type = .random_private_resolvable) (hlen : 3 ≤ pa.addr.length)
    (db : List BondDbEntry) :
    find_loop aes is_client pa db =
      .ok (firstMatchIdx (fun r => (is_client == r.peer_is_client) &&
            resolvesToTrue aes pa r.bonding_data.peer_id.irk) db) := by
  induction db with
  | nil => rfl
  | cons r rest ih =>
    by_cases hrole : is_client = r.peer_is_client
    · subst hrole
      have hres := resolves_of_three_le aes pa r.bonding_data.peer_id.irk hlen
      cases hb : (ahHash aes r.bonding_data.peer_id.irk (pa.addr.take 3) == pa.addr.drop 3) <;>
        rw [hb] at hres <;>
        simp [find_loop, firstMatchIdx, resolvesToTrue, hres, hT, ih, Except.map]
    · simp [find_loop, firstMatchIdx, hrole, ih, Except.map]

/-- Counterexample to claim C3 as stated: with a role-matching record in the
store and a malformed (2-byte) random-private-resolvable peer address, the
lookup raises rather than returning a match or no match. -/
theorem claim_C3_counterexample :
    find_db_entry aesTest true [recTest] ⟨.random_private_resolvable, [1, 2]⟩
      = .error (.valueError "Prand must be a str or bytes of length 3") := rfl

/-- Claim C3 as amended: for every bond-store contents and peer address the
lookup returns no match for random-private-non-resolvable addresses; for
public and random-static addresses it returns the first record in insertion
order with matching role flag and exactly equal address (independently of
any cryptography); and for random-private-resolvable addresses of at least 3
bytes (shorter ones can raise) it returns the first record in insertion
order with matching role flag whose stored IRK resolves the address; in each
case no match when no such record exists. -/
theorem claim_C3_find_db_entry (aes : AesFn) (is_client : Bool) (db : List BondDbEntry)
    (pa : BLEGapAddr) :
    (pa.addr_type = .random_private_non_resolvable →
      find_db_entry aes is_client db pa = .ok none) ∧
    (pa.addr_type = .public ∨ pa.addr_type = .random_static →
      find_db_entry aes is_client db pa =
        .ok (firstMatchIdx (fun r => (is_client == r.peer_is_client) && (r.peer_addr == pa)) db)) ∧
    (pa.addr_type = .random_private_resolvable → 3 ≤ pa.addr.length →
      find_db_entry aes is_client db pa =
        .ok (firstMatchIdx (fun r => (is_client == r.peer_is_client) &&
              resolvesToTrue aes pa r.bonding_data.peer_id.irk) db)) := by
  refine ⟨fun h => ?_, fun h => ?_, fun h hlen => ?_⟩
  · simp [find_db_entry, h]
  · have hne : pa.addr_type ≠ .random_private_non_resolvable := by
      rcases h with h | h <;> simp [h]
    simp [find_db_entry, hne, find_loop_exact aes is_client pa h db]
  · simp [find_db_entry, h, find_loop_resolvable aes is_client pa h hlen db]

/-- Witness for the amended claim C3 at concrete stores and addresses of each
address type. -/
theorem claim_C3_find_db_entry_witness :
    find_db_entry aesTest true [recTest] ⟨.random_private_non_resolvable, [1, 2, 3, 4, 5, 6]⟩
      = .ok none ∧
    find_db_entry aesTest true [recTest] addrTest
      = .ok (firstMatchIdx
          (fun r => (true == r.peer_is_client) && (r.peer_addr == addrTest)) [recTest]) ∧
    find_db_entry aesTest true [recTest] ⟨.random_private_resolvable, [9, 9, 9, 0, 0, 0]⟩
      = .ok (firstMatchIdx
          (fun r => (true == r.peer_is_client) &&
            resolvesToTrue aesTest ⟨.random_private_resolvable, [9, 9, 9, 0, 0, 0]⟩
              r.bonding_data.peer_id.irk) [recTest]) := by
  refine ⟨?_, ?_, ?_⟩
  · exact (claim_C3_find_db_entry aesTest true [recTest]
      ⟨.random_private_non_resolvable, [1, 2, 3, 4, 5, 6]⟩).1 rfl
  · exact (claim_C3_find_db_entry aesTest true [recTest] addrTest).2.1 (Or.inl rfl)
  · exact (claim_C3_find_db_entry aesTest true [recTest]
      ⟨.random_private_resolvable, [9, 9, 9, 0, 0, 0]⟩).2.2 rfl (by decide)

/-!
Claim C8.
-/

theorem find_by_master_id_eq (is_client : Bool) (mid : MasterId) (db : List BondDbEntry) :
    find_by_master_id is_client mid db =
      firstMatchIdx (fun r => (r.peer_is_client == is_client) &&
        (midMatches mid r.bonding_data.own_ltk.master_id ||
         midMatches mid r.bonding_data.peer_ltk.master_id)) db := by
  induction db with
  | nil => rfl
  | cons r rest ih =>
    cases hown : midMatches mid r.bonding_data.own_ltk.master_id <;>
    cases hpeer : midMatches mid r.bonding_data.peer_ltk.master_id <;>
    by_cases hrole : r.peer_is_client = is_client <;>
      simp [find_by_master_id, firstMatchIdx, hrole, hown, hpeer, ih]

/-- Claim C8: the security-info scan picks the first record in insertion
order whose role flag matches and whose own-LTK master id or peer-LTK master
id equals the event's master id (own checked first, affecting only logging);
when found, the reply carries that record's own-LTK encryption info, and
when not, the reply is empty. -/
theorem claim_C8_sec_info_request (st : SmpState) (ev : SecInfoEvent) :
    find_by_master_id st.peer_is_client ev.master_id st.bond_db =
      firstMatchIdx (fun r => (r.peer_is_client == st.peer_is_client) &&
        (midMatches ev.master_id r.bonding_data.own_ltk.master_id ||
         midMatches ev.master_id r.bonding_data.peer_ltk.master_id)) st.bond_db ∧
    (find_by_master_id st.peer_is_client ev.master_id st.bond_db = none →
      on_security_info_request st ev =
        (st, [Command.secInfoReply ev.conn_handle none none none])) ∧
    (∀ i r, find_by_master_id st.peer_is_client ev.master_id st.bond_db = some i →
      st.bond_db.get? i = some r →
      on_security_info_request st ev =
        ({ st with bond_db_entry := some i },
         [Command.secInfoReply ev.conn_handle
            (some r.bonding_data.own_ltk.enc_info) none none])) := by
  refine ⟨find_by_master_id_eq st.peer_is_client ev.master_id st.bond_db,
    fun h => ?_, fun i r h hr => ?_⟩
  · simp [on_security_info_request, h]
  · simp [on_security_info_request, h, hr]
    exact ⟨r, by simpa using hr, rfl⟩

/-- Witness for claim C8: a master id matching the stored record's own LTK
is answered with that record's encryption info, and an unknown master id is
answered with an empty reply. -/
theorem claim_C8_sec_info_request_witness :
    on_security_info_request stTest ⟨7, ⟨1, [2, 3]⟩⟩ =
      ({ stTest with bond_db_entry := some 0 },
       [Command.secInfoReply 7 (some 10) none none]) ∧
    on_security_info_request stTest ⟨7, ⟨99, []⟩⟩ =
      (stTest, [Command.secInfoReply 7 none none none]) := by
  constructor
  · exact (claim_C8_sec_info_request stTest ⟨7, ⟨1, [2, 3]⟩⟩).2.2 0 recTest rfl rfl
  · exact (claim_C8_sec_info_request stTest ⟨7, ⟨99, []⟩⟩).2.1 rfl

/-!
Claim C5.
-/

/-- Claim C5: `pair()` raises `InvalidState` whenever busy (taking
precedence), raises `InvalidOperation` when not busy but configured to
reject pairing requests — in both failure cases sending nothing and leaving
the state unchanged — and otherwise sends the authenticate command, sets
busy and returns the waitable on the pairing-complete event. -/
theorem claim_C5_pair (st : SmpState) :
    (st.busy = true → pair st = (.error (.invalidState "Security manager busy"), st, [])) ∧
    (st.busy = false → st.security_params.reject_pairing_requests = true →
      pair st =
        (.error (.invalidOperation "Cannot initiate pairing while rejecting pairing requests"),
         st, [])) ∧
    (st.busy = false → st.security_params.reject_pairing_requests = false →
      pair st = (.ok .onPairingComplete, { st with busy := true },
        [Command.authenticate st.conn_handle (get_security_params st)])) := by
  refine ⟨fun h => ?_, fun h hr => ?_, fun h hr => ?_⟩
  · simp [pair, h]
  · simp [pair, h, hr]
  · simp [pair, h, hr]

/-- Witness for claim C5 at concrete busy, rejecting and pairing-ready states. -/
theorem claim_C5_pair_witness :
    pair { stTest with busy := true }
      = (.error (.invalidState "Security manager busy"), { stTest with busy := true }, []) ∧
    pair { stTest with security_params := ⟨false, 4, true, false, true⟩ }
      = (.error (.invalidOperation "Cannot initiate pairing while rejecting pairing requests"),
         { stTest with security_params := ⟨false, 4, true, false, true⟩ }, []) ∧
    pair stTest
      = (.ok .onPairingComplete, { stTest with busy := true },
         [Command.authenticate 7 (get_security_params stTest)]) := by
  refine ⟨?_, ?_, ?_⟩
  · exact (claim_C5_pair { stTest with busy := true }).1 rfl
  · exact (claim_C5_pair { stTest with security_params := ⟨false, 4, true, false, true⟩ }).2.1
      rfl rfl
  · exact (claim_C5_pair stTest).2.2 rfl rfl

/-!
Claim C7. The source's `set_security_params` performs no busy check at all:
it unconditionally builds a new `SecurityParameters` from its arguments and
stores it, busy or not, and can never raise.
-/

/-- Counterexample to claim C7 as stated: while busy, `set_security_params`
does not fail — it replaces the stored parameters. -/
theorem claim_C7_counterexample :
    ({ stTest with busy := true } : SmpState).busy = true ∧
    (set_security_params { stTest with busy := true } true 9 true true true).security_params
      = ⟨true, 9, true, true, true⟩ ∧
    (set_security_params { stTest with busy := true } true 9 true true true).security_params
      ≠ ({ stTest with busy := true } : SmpState).security_params := by
  refine ⟨rfl, rfl, ?_⟩
  decide

/-- Claim C7 as amended: `set_security_params` never fails; whether busy or
not it replaces the stored `SecurityParameters` with the supplied values and
changes nothing else in the session. -/
theorem claim_C7_set_security_params (st : SmpState) (pc : Bool) (io : Nat)
    (bd ob rj : Bool) :
    (set_security_params st pc io bd ob rj).security_params = ⟨pc, io, bd, ob, rj⟩ ∧
    (set_security_params st pc io bd ob rj).busy = st.busy ∧
    (set_security_params st pc io bd ob rj).bond_db = st.bond_db ∧
    (set_security_params st pc io bd ob rj).bond_db_entry = st.bond_db_entry ∧
    (set_security_params st pc io bd ob rj).keyset = st.keyset :=
  ⟨rfl, rfl, rfl, rfl, rfl⟩

/-!
Claim C9.
-/

/-- Claim C9: the resolve callback is a silent no-op (no command, no state
change — it only reads the session) when invoked while not busy, and while
busy it sends the auth-key reply carrying the requesting event's key type
and the supplied passkey. -/
theorem claim_C9_resolve (st : SmpState) (key_type : Nat) (pk : PasskeyValue) :
    (st.busy = false → auth_key_resolve st key_type pk = []) ∧
    (st.busy = true → auth_key_resolve st key_type pk =
      [Command.authKeyReply st.conn_handle key_type (format_passkey pk)]) := by
  constructor <;> intro h <;> simp [auth_key_resolve, h]

/-- Witness for claim C9 at a stale (not busy) and a busy session. -/
theorem claim_C9_resolve_witness :
    auth_key_resolve stTest 2 (.num 42) = [] ∧
    auth_key_resolve { stTest with busy := true } 2 (.num 42) =
      [Command.authKeyReply 7 2 (format_passkey (.num 42))] := by
  constructor
  · exact (claim_C9_resolve stTest 2 (.num 42)).1 rfl
  · exact (claim_C9_resolve { stTest with busy := true } 2 (.num 42)).2 rfl

/-!
Claim C10.
-/

/-- Claim C10: every peer-connected event resets busy to false (before the
bond lookup, whose outcome — match, no match or exception — cannot change
that), so right after connection handling `pair()` can never fail with
`InvalidState`. -/
theorem claim_C10_connect_resets_busy (aes : AesFn) (st : SmpState) (pa : BLEGapAddr) :
    ((on_peer_connected aes st pa).2.1).busy = false ∧
    (∀ m : String, (pair (on_peer_connected aes st pa).2.1).1 ≠ .error (.invalidState m)) := by
  have hb : ((on_peer_connected aes st pa).2.1).busy = false := by
    simp only [on_peer_connected]
    rcases find_db_entry aes st.peer_is_client st.bond_db pa with e | r <;> rfl
  refine ⟨hb, fun m hc => ?_⟩
  by_cases hr : (on_peer_connected aes st pa).2.1.security_params.reject_pairing_requests
  · simp [pair, hb, hr] at hc
  · simp [pair, hb, hr] at hc

/-- Witness for claim C10: a session left busy by an unfinished pairing is
reset on the next connection, and `pair()` does not raise `InvalidState`. -/
theorem claim_C10_connect_resets_busy_witness :
    ((on_peer_connected aesTest { stTest with busy := true } addrTest).2.1).busy = false ∧
    (pair (on_peer_connected aesTest { stTest with busy := true } addrTest).2.1).1
      ≠ .error (.invalidState "Security manager busy") := by
  constructor
  · exact (claim_C10_connect_resets_busy aesTest { stTest with busy := true } addrTest).1
  · exact (claim_C10_connect_resets_busy aesTest { stTest with busy := true } addrTest).2
      "Security manager busy"

/-!
Claim C4. The authentication-status handler does set busy to false, but the
timeout handler never touches the busy flag: for a security-request timeout
it only raises the pairing-complete notification, so a session that was busy
stays busy forever (and `pair()` keeps raising `InvalidState`), contradicting
the specification's invariant that busy is false after either terminal
event. The specification is clearly the intent — the handler reports the
pairing as complete with a timeout status yet leaves the session unusable —
so this is recorded as a bug in the code.
-/

/-- Claim C4, evaluated at the failing input: a busy session receiving a
security-request timeout notifies pairing-complete(timeout) but is still
busy afterwards, while the authentication-status handler does clear busy. -/
theorem claim_C4_timeout_leaves_busy :
    on_timeout { stTest with busy := true } .security_req =
      ({ stTest with busy := true }, [Command.notifyPairingComplete SecurityStatus.timeout]) ∧
    ({ stTest with busy := true } : SmpState).busy = true ∧
    ((on_authentication_status aesTest { stTest with busy := true }
        ⟨7, .pairing_not_supp, false⟩ keysetTest).2.1).busy = false :=
  ⟨rfl, rfl, rfl⟩

/-!
Claim C2.
-/

/-- Claim C2: after a successful bonded authentication-status event, if no
bond record matched beforehand and none matches on the retry lookup with the
post-handshake identity address, exactly one new record — carrying the peer
role flag, the identity address and the negotiated keyset's bonding data —
is appended to the store; if a record already matched (beforehand or on the
retry), its bonding data is replaced and nothing is appended; both cases
persist the store. Any other status, or a clear bonded flag, leaves the
store unchanged and unpersisted. -/
theorem claim_C2_auth_status (aes : AesFn) (st : SmpState) (ev : AuthStatusEvent)
    (ks : SecKeyset) :
    (ev.auth_status ≠ .success ∨ ev.bonded = false →
      on_authentication_status aes st ev ks =
        (.ok (), { st with busy := false }, [Command.notifyPairingComplete ev.auth_status])) ∧
    (ev.auth_status = .success → ev.bonded = true → st.bond_db_entry = none →
      find_db_entry aes st.peer_is_client st.bond_db ks.peer_id.peer_addr = .ok none →
      on_authentication_status aes st ev ks =
        (.ok (),
         { st with
           busy := false, keyset := ks,
           bond_db := st.bond_db ++
             [⟨st.peer_is_client, ks.peer_id.peer_addr, BondingData.ofKeyset ks⟩],
           bond_db_entry := some st.bond_db.length },
         [Command.notifyPairingComplete .success,
          Command.dbSave (st.bond_db ++
            [⟨st.peer_is_client, ks.peer_id.peer_addr, BondingData.ofKeyset ks⟩])])) ∧
    (ev.auth_status = .success → ev.bonded = true →
      ∀ i r, (st.bond_db_entry = some i ∨
              (st.bond_db_entry = none ∧
               find_db_entry aes st.peer_is_client st.bond_db ks.peer_id.peer_addr
                 = .ok (some i))) →
      st.bond_db.get? i = some r →
      on_authentication_status aes st ev ks =
        (.ok (),
         { st with
           busy := false, keyset := ks,
           bond_db := st.bond_db.set i { r with bonding_data := BondingData.ofKeyset ks },
           bond_db_entry := some i },
         [Command.notifyPairingComplete .success,
          Command.dbSave (st.bond_db.set i
            { r with bonding_data := BondingData.ofKeyset ks })])) := by
  refine ⟨fun h => ?_, fun hS hB hE hF => ?_, fun hS hB i r hOr hget => ?_⟩
  · have hcond : (ev.auth_status == SecurityStatus.success && ev.bonded) = false := by
      rcases h with h | h
      · simp [beq_eq_false_iff_ne.mpr h]
      · simp [h]
    simp [on_authentication_status, hcond]
  · have hcond : (ev.auth_status == SecurityStatus.success && ev.bonded) = true := by
      simp [hS, hB]
    simp [on_authentication_status, hcond, hE, hF, hS, hB]
  · have hcond : (ev.auth_status == SecurityStatus.success && ev.bonded) = true := by
      simp [hS, hB]
    have hget2 : st.bond_db[i]? = some r := by simpa using hget
    rcases hOr with hE | ⟨hE, hF⟩
    · simp [on_authentication_status, hcond, hE, hS, hB, setBondingData, hget2]
    · simp [on_authentication_status, hcond, hE, hF, hS, hB, setBondingData, hget2]

/-- Witness for claim C2: a first bonded success on an empty store appends
exactly the new record and persists; a second bonded success for the stored
identity updates that record in place; a failed exchange leaves the store
alone. -/
theorem claim_C2_auth_status_witness :
    on_authentication_status aesTest { stTest with bond_db := [] } ⟨7, .success, true⟩ keysetTest
      = (.ok (),
         { stTest with
           busy := false, keyset := keysetTest,
           bond_db := [⟨true, addrTest, BondingData.ofKeyset keysetTest⟩],
           bond_db_entry := some 0 },
         [Command.notifyPairingComplete .success,
          Command.dbSave [⟨true, addrTest, BondingData.ofKeyset keysetTest⟩]]) ∧
    on_authentication_status aesTest stTest ⟨7, .success, true⟩ keysetTest
      = (.ok (),
         { stTest with
           busy := false, keyset := keysetTest,
           bond_db := [{ recTest with bonding_data := BondingData.ofKeyset keysetTest }],
           bond_db_entry := some 0 },
         [Command.notifyPairingComplete .success,
          Command.dbSave [{ recTest with bonding_data := BondingData.ofKeyset keysetTest }]]) ∧
    on_authentication_status aesTest stTest ⟨7, .pairing_not_supp, true⟩ keysetTest
      = (.ok (), { stTest with busy := false },
         [Command.notifyPairingComplete .pairing_not_supp]) := by
  refine ⟨?_, ?_, ?_⟩
  · exact (claim_C2_auth_status aesTest { stTest with bond_db := [] }
      ⟨7, .success, true⟩ keysetTest).2.1 rfl rfl rfl rfl
  · exact (claim_C2_auth_status aesTest stTest ⟨7, .success, true⟩ keysetTest).2.2
      rfl rfl 0 recTest (Or.inr ⟨rfl, rfl⟩) rfl
  · exact (claim_C2_auth_status aesTest stTest ⟨7, .pairing_not_supp, true⟩ keysetTest).1
      (Or.inl (by decide))

end Blatann
